import Mathlib

/-!
Shallow embedding of `src/frontend/app.js` (StoryWeaverApp and the PDF
upload flow).  DOM state that the script reads or writes is carried in
explicit state records; every `fetch` is modelled by passing the settled
outcome of the request as an explicit argument, and each issued request is
appended to a log so that "no network call" is expressible.  The DOM
elements the script guards with null checks are modelled as present (the
page that hosts the script contains them).
-/

/-- `String.prototype.trim`: strips leading and trailing whitespace.
Structural implementation over the character list (the embedding avoids
`String.trim` so kernel evaluation works on concrete inputs). -/
def isJsWhitespace (c : Char) : Bool :=
  c = ' ' || c = '\t' || c = '\n' || c = '\r'

def jsTrim (s : String) : String :=
  String.mk (((s.toList.dropWhile isJsWhitespace).reverse.dropWhile isJsWhitespace).reverse)

/-- Split a string on single spaces (the way a `className` built by
string concatenation with `' '` decomposes into a class list). -/
def splitOnSpaceAux : List Char → List (List Char)
  | [] => [[]]
  | c :: cs =>
    let rest := splitOnSpaceAux cs
    if c = ' ' then [] :: rest
    else (c :: rest.headD []) :: rest.tail

def splitOnSpace (s : String) : List String :=
  (splitOnSpaceAux s.toList).map String.mk

/-- One entry of `StoryWeaverApp.messages`:
`this.messages.push({ text, sender, timestamp: new Date() })`.
The wall-clock timestamp is outside the embedding and omitted. -/
structure Message where
  text : String
  sender : String
deriving Repr, DecidableEq

/-- One child of the `chat-messages` container.  `addMessage` appends a
div with `className = 'message ' + sender`; `addSystemMessage` appends a
div with `className = 'system-message'`. -/
inductive ChatEntry where
  | message (text : String) (sender : String)
  | systemNotice (text : String)
deriving Repr, DecidableEq

/-- The class list of a transcript entry.  A message div's `className` is
`'message ' + sender`, so its classes are `"message"` followed by the
space-separated tokens of `sender`. -/
def ChatEntry.classes : ChatEntry → List String
  | .message _ sender => "message" :: splitOnSpace sender
  | .systemNotice _ => ["system-message"]

/-- Whether the entry matches the selector `.message.bot`
(`messagesContainer.querySelector('.message.bot')`). -/
def isMessageBot (e : ChatEntry) : Bool :=
  e.classes.contains "message" && e.classes.contains "bot"

def ChatEntry.isSystemNotice : ChatEntry → Bool
  | .systemNotice _ => true
  | _ => false

/-- The `(text, sender)` pair an entry renders, `none` for system notices. -/
def ChatEntry.rendersMessage? : ChatEntry → Option (String × String)
  | .message t sender => some (t, sender)
  | .systemNotice _ => none

/-- `this.currentStory = { id: storyId, title: storyTitle }`. -/
structure Story where
  id : String
  title : String
deriving Repr, DecidableEq

/-- One rendered entry of the `stories-list` container: the div carries
`dataset.id = story.id` and a span with `textContent = story.title`. -/
structure StoryItem where
  id : String
  title : String
deriving Repr, DecidableEq

/-- Requests issued via `fetch`, in issue order. -/
inductive Request where
  | getStories
  | getStoryLogic (storyId : String)
  | postMessage (storyId : String) (content : String)
  | getMessages (storyId : String)
  | postExpansion (storyId : String) (newContent : String) (pageNumber : Option Int)
deriving Repr, DecidableEq

/-- The state owned (or read from the DOM) by `StoryWeaverApp`. -/
structure AppState where
  currentStory : Option Story
  messages : List Message
  transcript : List ChatEntry
  inputValue : String
  storiesList : List StoryItem
  charactersList : List String
  locationsList : List String
  rulesList : List String
  expansionText : String
  expansionPage : String
  expansionModalDisplay : String
  sendBtnDisabled : Bool
  errors : List String
  network : List Request
deriving Repr, DecidableEq

/-- `showError(message)`: appends one auto-dismissing error notification. -/
def showError (msg : String) (s : AppState) : AppState :=
  { s with errors := s.errors ++ [msg] }

/-- `addMessage(text, sender)`: appends a message div to the transcript and
pushes the mirrored record onto `this.messages`. -/
def addMessage (text sender : String) (s : AppState) : AppState :=
  { s with transcript := s.transcript ++ [ChatEntry.message text sender],
           messages := s.messages ++ [{ text := text, sender := sender }] }

def welcomeText : String :=
  "Hello! I'm here to help you explore and expand children's stories. Please select a story to begin."

/-- `addWelcomeMessage()`. -/
def addWelcomeMessage (s : AppState) : AppState :=
  addMessage welcomeText "bot" s

/-- `addSystemMessage(text)`: appends a `system-message` div to the
transcript only; `this.messages` is not touched. -/
def addSystemMessage (text : String) (s : AppState) : AppState :=
  { s with transcript := s.transcript ++ [ChatEntry.systemNotice text] }

/-- `clearChat()`: empties the container and `this.messages`, then re-adds
the welcome message. -/
def clearChat (s : AppState) : AppState :=
  addWelcomeMessage { s with transcript := [], messages := [] }

/-- Settled outcome of the `POST /stories/{id}/messages` round trip.
`thrown` covers a rejected `fetch` or a throwing `response.json()`
(the body is parsed before `response.ok` is checked); `http ok` is a
settled response whose body parsed. -/
inductive SendResult where
  | thrown
  | http (ok : Bool)
deriving Repr, DecidableEq

/-- `sendMessage()`: reads and trims the input; returns early on empty
text, reports an error when no story is selected, otherwise renders the
optimistic user message, clears the input, disables the send button, POSTs
the message, reports errors on failure, and re-enables the send button in
the `finally` block.  (On `http true` the source schedules `loadMessages`
after 500 ms; the resync is modelled as the explicit composition
`loadMessages _ (sendMessage _ s)`.) -/
def sendMessage (result : SendResult) (s : AppState) : AppState :=
  let message := jsTrim s.inputValue
  if message = "" then s
  else
    match s.currentStory with
    | none => showError "Please select a story first." s
    | some story =>
      let s1 := addMessage message "user" s
      let s2 := { s1 with inputValue := "" }
      let s3 := { s2 with sendBtnDisabled := true }
      let s4 := { s3 with network := s3.network ++ [Request.postMessage story.id message] }
      let s5 :=
        match result with
        | .http true => s4
        | .http false => showError "Failed to send message. Please try again." s4
        | .thrown => showError "Failed to send message. Please check your connection." s4
      { s5 with sendBtnDisabled := false }

/-- One element of the list returned by `GET /stories/{id}/messages`. -/
structure ServerMsg where
  content : String
  sender : String
deriving Repr, DecidableEq

/-- Settled outcome of the `GET /stories/{id}/messages` round trip.
`thrown`: `fetch` rejected or `response.json()` threw, before any DOM
mutation.  `nonArray`: the body parsed to a value without `forEach`; the
TypeError fires after the container was already cleared down to the
retained welcome element. -/
inductive MessagesResult where
  | thrown
  | nonArray
  | messages (msgs : List ServerMsg)
deriving Repr, DecidableEq

/-- `loadMessages()`: no-op without a story; otherwise fetches the list,
keeps only the first element matching `.message.bot`, clears the
container, re-appends the retained element, then re-renders every fetched
message through `addMessage` (which also pushes onto `this.messages`).
`this.messages` is not reset here. -/
def loadMessages (result : MessagesResult) (s : AppState) : AppState :=
  match s.currentStory with
  | none => s
  | some story =>
    let s1 := { s with network := s.network ++ [Request.getMessages story.id] }
    match result with
    | .thrown => s1
    | .nonArray => { s1 with transcript := (s1.transcript.find? isMessageBot).toList }
    | .messages msgs =>
      let s2 := { s1 with transcript := (s1.transcript.find? isMessageBot).toList }
      msgs.foldl (fun st m => addMessage m.content m.sender st) s2

/-- A JSON value as produced by `response.json()`, plus `undef` for the
result of reading a missing property.  JSON numbers are modelled as
integers (no claim involves fractional values). -/
inductive JValue where
  | undef
  | null
  | bool (b : Bool)
  | num (n : Int)
  | str (s : String)
  | arr (xs : List JValue)
  | obj (fields : List (String × JValue))

/-- JavaScript truthiness. -/
def truthy : JValue → Bool
  | .undef => false
  | .null => false
  | .bool b => b
  | .num n => n != 0
  | .str s => s != ""
  | .arr _ => true
  | .obj _ => true

/-- Property read `v[k]`: a missing key (or a non-object receiver, for the
keys this client reads) yields `undefined`.  `JSON.parse` never produces
duplicate keys, so fields are assumed key-unique. -/
def jGet : JValue → String → JValue
  | .obj fields, k => ((fields.find? (fun p => p.1 == k)).map Prod.snd).getD .undef
  | _, _ => .undef

def JValue.isArr : JValue → Bool
  | .arr _ => true
  | _ => false

mutual

/-- JavaScript `ToString`, as used by the `dataset.id` assignment.  Inside
an array join, `null`/`undefined` render empty. -/
def jsToString : JValue → String
  | .undef => "undefined"
  | .null => "null"
  | .bool true => "true"
  | .bool false => "false"
  | .num n => toString n
  | .str s => s
  | .arr xs => String.intercalate "," (jsToStringList xs)
  | .obj _ => "[object Object]"

def jsToStringList : List JValue → List String
  | [] => []
  | .undef :: vs => "" :: jsToStringList vs
  | .null :: vs => "" :: jsToStringList vs
  | v :: vs => jsToString v :: jsToStringList vs

end

/-- The `textContent` setter coerces `null` to the empty string and
everything else through `ToString`. -/
def textContentString : JValue → String
  | .null => ""
  | v => jsToString v

/-- The story item `populateStoriesList` builds for one element of the
`stories` array: `storyItem.dataset.id = story.id`;
`span.textContent = story.title`. -/
def renderStoryItem (story : JValue) : StoryItem :=
  { id := jsToString (jGet story "id"), title := textContentString (jGet story "title") }

/-- `populateStoriesList(stories)` on an actual array: clears the
container (`innerHTML = ''`) and appends one item per element. -/
def populateStoriesList (stories : List JValue) (s : AppState) : AppState :=
  { s with storiesList := stories.foldl (fun l story => l ++ [renderStoryItem story]) [] }

/-- Settled outcome of the `GET /stories` round trip: `thrown` covers a
rejected `fetch` or a throwing `response.json()`. -/
inductive StoriesResult where
  | thrown
  | json (data : JValue)

def errLoadStories : String := "Failed to load stories. Please try again."

/-- `loadStories()`: on `data && data.stories` truthy, hands
`data.stories` to `populateStoriesList`; there a non-array value throws a
TypeError from `.forEach` after the container was already cleared, and the
surrounding catch reports the same error banner.  Falsy shapes and
transport failures report the error banner and leave the list untouched. -/
def loadStories (result : StoriesResult) (s : AppState) : AppState :=
  match result with
  | .thrown => showError errLoadStories { s with network := s.network ++ [Request.getStories] }
  | .json data =>
    let s0 := { s with network := s.network ++ [Request.getStories] }
    if truthy data && truthy (jGet data "stories") then
      match jGet data "stories" with
      | .arr xs => populateStoriesList xs s0
      | _ => showError errLoadStories { s0 with storiesList := [] }
    else
      showError errLoadStories s0

/-- One entry of `data.data.elements` in the `GET /stories/{id}` response. -/
structure StoryElement where
  type : String
  name : String
  description : String
deriving Repr, DecidableEq

/-- Settled outcome of the `GET /stories/{id}` round trip: `thrown` covers
a rejected `fetch` or a throwing `response.json()`; otherwise the
truthiness of `data.success` and the (optional) `data.data.elements`
array. -/
inductive LogicResult where
  | thrown
  | json (success : Bool) (elements : Option (List StoryElement))
deriving Repr, DecidableEq

/-- `updateStoryLogicPanel(storyData)`: when `storyData.elements` is
present, re-renders the characters view from the `type === 'character'`
entries as `name + ' (' + description + ')'` and the locations view from
the `type === 'location'` entries as `name`; the rules view is always set
to its placeholder item. -/
def updateStoryLogicPanel (elements : Option (List StoryElement)) (s : AppState) : AppState :=
  let s1 :=
    match elements with
    | some es =>
      let chars := (es.filter (fun (el : StoryElement) => el.type == "character")).foldl
        (fun l (el : StoryElement) => l ++ [el.name ++ " (" ++ el.description ++ ")"]) []
      { s with charactersList := chars }
    | none => s
  let s2 :=
    match elements with
    | some es =>
      let locs := (es.filter (fun (el : StoryElement) => el.type == "location")).foldl
        (fun l (el : StoryElement) => l ++ [el.name]) []
      { s1 with locationsList := locs }
    | none => s1
  { s2 with rulesList := ["Story consistency rules will be shown here"] }

/-- `loadStoryLogic(storyId)`: updates the panel only when `data.success`
is truthy; failures are logged only. -/
def loadStoryLogic (storyId : String) (result : LogicResult) (s : AppState) : AppState :=
  let s0 := { s with network := s.network ++ [Request.getStoryLogic storyId] }
  match result with
  | .thrown => s0
  | .json success elements => if success then updateStoryLogicPanel elements s0 else s0

/-- `parseInt` as applied to the `expansion-page` field: leading
whitespace, optional sign, then a decimal digit prefix; `none` is `NaN`. -/
def jsParseInt (str : String) : Option Int :=
  let t := jsTrim str
  let (sign, rest) :=
    if t.startsWith "-" then ((-1 : Int), t.drop 1)
    else if t.startsWith "+" then ((1 : Int), t.drop 1)
    else ((1 : Int), t)
  let digits := rest.takeWhile Char.isDigit
  if digits.isEmpty then none
  else some (sign * (digits.toNat?.getD 0))

/-- Settled outcome of the `POST /propose-expansion` round trip. -/
inductive ExpansionResult where
  | thrown
  | json (success : Bool)
deriving Repr, DecidableEq

/-- `submitExpansion()`: validates non-empty trimmed text; with no story
selected, `this.currentStory.id` inside the try block throws a TypeError
before the request is issued, and the catch boundary reports the
connection-error banner.  On `success: true`, appends the confirmation
message, closes the modal, and clears the input field. -/
def submitExpansion (result : ExpansionResult) (s : AppState) : AppState :=
  let expansionText := jsTrim s.expansionText
  let pageNumber := jsParseInt s.expansionPage
  if expansionText = "" then showError "Please enter your expansion idea." s
  else
    match s.currentStory with
    | none => showError "Failed to submit expansion. Please check your connection." s
    | some story =>
      let s1 := { s with network :=
        s.network ++ [Request.postExpansion story.id expansionText pageNumber] }
      match result with
      | .thrown => showError "Failed to submit expansion. Please check your connection." s1
      | .json true =>
        let s2 := addMessage "Expansion proposal submitted successfully!" "bot" s1
        { s2 with expansionModalDisplay := "none", expansionText := "" }
      | .json false => showError "Failed to submit expansion. Please try again." s1

/-- The DOM state the PDF upload flow reads and writes.  `selectedFile`
models `pdfFileInput.files[0]` by file name; setting `value = ''` clears
the selection. -/
structure UploadState where
  fileInputValue : String
  selectedFile : Option String
  selectedFileName : String
  confirmDisabled : Bool
  cancelDisabled : Bool
  progressDisplay : String
  progressWidth : String
  statusText : String
  statusColor : String
  modalDisplay : String
deriving Repr, DecidableEq

/-- Settled outcome of the `POST /api/upload-pdf/` round trip: `thrown`
carries the message of the rejected `fetch` or throwing `json()`; a
settled response carries its HTTP status and status text. -/
inductive UploadResult where
  | thrown (msg : String)
  | response (status : Nat) (statusText : String)
deriving Repr, DecidableEq

/-- `Response.ok`: status in the range 200–299. -/
def httpOk (status : Nat) : Bool :=
  200 ≤ status && status ≤ 299

/-- The `confirmUploadBtn` click handler: returns early without a file;
otherwise shows progress, disables both buttons, POSTs the file, treats a
non-OK status as `throw new Error('Upload failed: ' + statusText)` into
the catch branch (status text in red), shows success otherwise, and
re-enables both buttons in the `finally` block.  The modal's display is
never touched here. -/
def confirmUpload (result : UploadResult) (u : UploadState) : UploadState :=
  match u.selectedFile with
  | none => u
  | some _ =>
    let u1 := { u with progressDisplay := "block", confirmDisabled := true,
                       cancelDisabled := true }
    let u2 :=
      match result with
      | .response status statusText =>
        if httpOk status then
          { u1 with progressWidth := "100%",
                    statusText := "Upload successful! Loading story..." }
        else
          { u1 with statusText := "Error: " ++ ("Upload failed: " ++ statusText),
                    statusColor := "red" }
      | .thrown msg => { u1 with statusText := "Error: " ++ msg, statusColor := "red" }
    { u2 with confirmDisabled := false, cancelDisabled := false }

/-- The `cancelUploadBtn` click handler: resets the file input, filename
label, progress display and width, status text and color, disables
confirm, and hides the modal. -/
def cancelUpload (u : UploadState) : UploadState :=
  { u with fileInputValue := "", selectedFile := none,
           selectedFileName := "No file selected",
           progressDisplay := "none", progressWidth := "0%",
           statusText := "Uploading...", statusColor := "",
           confirmDisabled := true, modalDisplay := "none" }

/-- The controller state right after `new StoryWeaverApp()` allocates its
fields (`currentStory = null`, `messages = []`) and before `init()` adds
the welcome message; the DOM containers start empty, the expansion page
field starts at `'1'`. -/
def initialState : AppState :=
  { currentStory := none, messages := [], transcript := [], inputValue := "",
    storiesList := [], charactersList := [], locationsList := [], rulesList := [],
    expansionText := "", expansionPage := "1", expansionModalDisplay := "none",
    sendBtnDisabled := false, errors := [], network := [] }

/-- The upload widgets as the page ships them: no file, sentinel label,
confirm disabled, progress hidden, modal closed. -/
def uploadInitial : UploadState :=
  { fileInputValue := "", selectedFile := none,
    selectedFileName := "No file selected", confirmDisabled := true,
    cancelDisabled := false, progressDisplay := "none", progressWidth := "0%",
    statusText := "Uploading...", statusColor := "", modalDisplay := "none" }

theorem foldl_append_map {α β : Type} (f : α → β) (xs : List α) (acc : List β) :
    xs.foldl (fun l a => l ++ [f a]) acc = acc ++ xs.map f := by
  induction xs generalizing acc with
  | nil => simp
  | cons x xs ih => simp [ih]

theorem foldl_addMessage (msgs : List ServerMsg) (s : AppState) :
    msgs.foldl (fun st m => addMessage m.content m.sender st) s
      = { s with
          transcript := s.transcript ++ msgs.map (fun m => ChatEntry.message m.content m.sender),
          messages := s.messages ++ msgs.map (fun m => { text := m.content, sender := m.sender }) } := by
  induction msgs generalizing s with
  | nil => simp
  | cons m ms ih =>
    rw [List.foldl_cons, ih]
    simp [addMessage, List.append_assoc]

theorem find?_toList_eq_filter {α : Type} (p : α → Bool) (l : List α)
    (h : (l.filter p).length ≤ 1) : (l.find? p).toList = l.filter p := by
  induction l with
  | nil => rfl
  | cons a l ih =>
    cases hp : p a with
    | true =>
      have hlen : (l.filter p).length = 0 := by
        have h2 := h
        simp only [List.filter_cons, hp, if_pos, List.length_cons] at h2
        omega
      have hf : l.filter p = [] := List.length_eq_zero.mp hlen
      simp [List.find?, hp, List.filter_cons, hf]
    | false =>
      have h2 : (l.filter p).length ≤ 1 := by
        simpa [List.filter_cons, hp] using h
      simpa [List.find?, hp, List.filter_cons] using ih h2

example : jsTrim "   " = "" := by decide
example : jsTrim "  hello " = "hello" := by decide
example (t : String) : isMessageBot (ChatEntry.message t "user") = false := by rfl
example (t : String) : isMessageBot (ChatEntry.message t "bot") = true := by rfl
example : isMessageBot (ChatEntry.systemNotice "x") = false := by decide

/-- C4: for every state, `sendMessage` with input that is empty after
trimming is a no-op — the state (hence transcript length, network log and
error notifications) is completely unchanged. -/
theorem sendMessage_emptyInput_noop (s : AppState) (r : SendResult)
    (h : jsTrim s.inputValue = "") : sendMessage r s = s := by
  simp [sendMessage, h]

/-- A state with a story selected and whitespace-only input. -/
def whitespaceInputState : AppState :=
  { initialState with inputValue := "   ",
                      currentStory := some { id := "s1", title := "The Fox" } }

theorem sendMessage_emptyInput_noop_witness :
    sendMessage SendResult.thrown whitespaceInputState = whitespaceInputState :=
  sendMessage_emptyInput_noop whitespaceInputState SendResult.thrown (by decide)

/-- C3 counterexample: at the concrete input `""` with no story selected,
`sendMessage` is a silent no-op — zero error notifications are produced,
not exactly one as the claim states for every input. -/
theorem sendMessage_noStory_counterexample :
    initialState.currentStory = none
    ∧ sendMessage (SendResult.http true) initialState = initialState
    ∧ initialState.errors = [] :=
  ⟨rfl, rfl, rfl⟩

/-- C3 (amended): for every input that is non-empty after trimming and
every state with no story selected, `sendMessage` produces exactly one
error notification, leaves the transcript (and mirrored message list)
unchanged, and issues no network call. -/
theorem sendMessage_noStory_spec (s : AppState) (r : SendResult)
    (hstory : s.currentStory = none) (hmsg : jsTrim s.inputValue ≠ "") :
    (sendMessage r s).errors = s.errors ++ ["Please select a story first."]
    ∧ (sendMessage r s).transcript = s.transcript
    ∧ (sendMessage r s).messages = s.messages
    ∧ (sendMessage r s).network = s.network := by
  simp [sendMessage, hstory, hmsg, showError]

/-- A state with no story selected and non-empty input. -/
def noStorySendState : AppState := { initialState with inputValue := "hello" }

theorem sendMessage_noStory_spec_witness :
    (sendMessage SendResult.thrown noStorySendState).errors
        = noStorySendState.errors ++ ["Please select a story first."]
    ∧ (sendMessage SendResult.thrown noStorySendState).transcript
        = noStorySendState.transcript
    ∧ (sendMessage SendResult.thrown noStorySendState).messages
        = noStorySendState.messages
    ∧ (sendMessage SendResult.thrown noStorySendState).network
        = noStorySendState.network :=
  sendMessage_noStory_spec noStorySendState SendResult.thrown rfl (by decide)

/-- C7: for every state, `clearChat` leaves the transcript containing
exactly one message, the bot welcome message, and the in-memory list
containing exactly that message. -/
theorem clearChat_spec (s : AppState) :
    (clearChat s).transcript = [ChatEntry.message welcomeText "bot"]
    ∧ (clearChat s).messages = [{ text := welcomeText, sender := "bot" }] :=
  ⟨rfl, rfl⟩

/-- C9: `cancelUpload` from every upload state resets the session (file
input cleared, filename label to the sentinel, progress hidden and at 0%,
status color default, confirm disabled) and hides the modal, and a second
call yields the same state as one call. -/
theorem cancelUpload_resets (u : UploadState) :
    (cancelUpload u).fileInputValue = ""
    ∧ (cancelUpload u).selectedFile = none
    ∧ (cancelUpload u).selectedFileName = "No file selected"
    ∧ (cancelUpload u).progressWidth = "0%"
    ∧ (cancelUpload u).progressDisplay = "none"
    ∧ (cancelUpload u).statusColor = ""
    ∧ (cancelUpload u).confirmDisabled = true
    ∧ (cancelUpload u).modalDisplay = "none"
    ∧ cancelUpload (cancelUpload u) = cancelUpload u :=
  ⟨rfl, rfl, rfl, rfl, rfl, rfl, rfl, rfl, rfl⟩

/-- C8: whenever the upload POST settles with a non-OK status, the status
text is the error containing the response's status text, both buttons are
re-enabled, and the modal's display is untouched (it remains open),
uniformly in the status code. -/
theorem confirmUpload_nonOk (u : UploadState) (f : String) (status : Nat)
    (st : String) (hfile : u.selectedFile = some f)
    (hstatus : httpOk status = false) :
    (confirmUpload (UploadResult.response status st) u).statusText
        = "Error: " ++ ("Upload failed: " ++ st)
    ∧ (confirmUpload (UploadResult.response status st) u).statusColor = "red"
    ∧ (confirmUpload (UploadResult.response status st) u).confirmDisabled = false
    ∧ (confirmUpload (UploadResult.response status st) u).cancelDisabled = false
    ∧ (confirmUpload (UploadResult.response status st) u).modalDisplay
        = u.modalDisplay := by
  simp [confirmUpload, hfile, hstatus]

/-- An upload session with a chosen file and an open modal. -/
def uploadReadyState : UploadState :=
  { uploadInitial with selectedFile := some "story.pdf",
                       selectedFileName := "story.pdf",
                       confirmDisabled := false, modalDisplay := "block" }

theorem confirmUpload_nonOk_witness :
    (confirmUpload (UploadResult.response 500 "Internal Server Error")
        uploadReadyState).statusText
        = "Error: " ++ ("Upload failed: " ++ "Internal Server Error")
    ∧ (confirmUpload (UploadResult.response 500 "Internal Server Error")
        uploadReadyState).statusColor = "red"
    ∧ (confirmUpload (UploadResult.response 500 "Internal Server Error")
        uploadReadyState).confirmDisabled = false
    ∧ (confirmUpload (UploadResult.response 500 "Internal Server Error")
        uploadReadyState).cancelDisabled = false
    ∧ (confirmUpload (UploadResult.response 500 "Internal Server Error")
        uploadReadyState).modalDisplay = uploadReadyState.modalDisplay :=
  confirmUpload_nonOk uploadReadyState "story.pdf" 500 "Internal Server Error"
    rfl (by decide)

/-- C10: with no story selected and non-empty trimmed expansion text,
`submitExpansion` raises no unhandled exception — the null dereference is
caught by the operation's catch boundary and converted into a single
connection-error notification; no expansion request is issued, and the
modal, input field and transcript are unchanged. -/
theorem submitExpansion_noStory (s : AppState) (r : ExpansionResult)
    (hstory : s.currentStory = none)
    (htext : jsTrim s.expansionText ≠ "") :
    (submitExpansion r s).errors
        = s.errors ++ ["Failed to submit expansion. Please check your connection."]
    ∧ (submitExpansion r s).network = s.network
    ∧ (submitExpansion r s).expansionModalDisplay = s.expansionModalDisplay
    ∧ (submitExpansion r s).expansionText = s.expansionText
    ∧ (submitExpansion r s).transcript = s.transcript := by
  simp [submitExpansion, hstory, htext, showError]

/-- A state with no story selected and a typed expansion idea. -/
def noStoryExpansionState : AppState :=
  { initialState with expansionText := "add a dragon" }

theorem submitExpansion_noStory_witness :
    (submitExpansion ExpansionResult.thrown noStoryExpansionState).errors
        = noStoryExpansionState.errors
            ++ ["Failed to submit expansion. Please check your connection."]
    ∧ (submitExpansion ExpansionResult.thrown noStoryExpansionState).network
        = noStoryExpansionState.network
    ∧ (submitExpansion ExpansionResult.thrown noStoryExpansionState).expansionModalDisplay
        = noStoryExpansionState.expansionModalDisplay
    ∧ (submitExpansion ExpansionResult.thrown noStoryExpansionState).expansionText
        = noStoryExpansionState.expansionText
    ∧ (submitExpansion ExpansionResult.thrown noStoryExpansionState).transcript
        = noStoryExpansionState.transcript :=
  submitExpansion_noStory noStoryExpansionState ExpansionResult.thrown rfl (by decide)

/-- C6: for every successful story-logic response with element list `es`,
the characters view contains exactly the `type == "character"` entries
rendered as `name (description)` in order, the locations view exactly the
`type == "location"` entries rendered as `name` in order; entries of any
other type contribute to neither view. -/
theorem loadStoryLogic_views (storyId : String) (s : AppState)
    (es : List StoryElement) :
    (loadStoryLogic storyId (LogicResult.json true (some es)) s).charactersList
        = (es.filter (fun el => el.type == "character")).map
            (fun el => el.name ++ " (" ++ el.description ++ ")")
    ∧ (loadStoryLogic storyId (LogicResult.json true (some es)) s).locationsList
        = (es.filter (fun el => el.type == "location")).map (fun el => el.name) := by
  constructor <;>
    simp [loadStoryLogic, updateStoryLogicPanel, foldl_append_map]

theorem find?_append_singleton_neg {α : Type} (p : α → Bool) (l : List α)
    (a : α) (ha : p a = false) : (l ++ [a]).find? p = l.find? p := by
  induction l with
  | nil => simp [List.find?, ha]
  | cons x l ih => cases hx : p x <;> simp [List.find?, hx, ih]

/-- C1: from a transcript holding at most one bot-class element, a
successful send-then-resync cycle leaves the rendered transcript equal to
exactly the retained bot-class element (if one existed) followed by the
server-returned messages in server order; the optimistic user message is
not duplicated. -/
theorem sendThenResync_transcript (s : AppState) (story : Story)
    (serverMsgs : List ServerMsg)
    (hstory : s.currentStory = some story)
    (hmsg : jsTrim s.inputValue ≠ "")
    (hwelcome : (s.transcript.filter isMessageBot).length ≤ 1) :
    (loadMessages (MessagesResult.messages serverMsgs)
        (sendMessage (SendResult.http true) s)).transcript
      = s.transcript.filter isMessageBot
        ++ serverMsgs.map (fun m => ChatEntry.message m.content m.sender) := by
  have hsend : sendMessage (SendResult.http true) s
      = { s with
          transcript := s.transcript ++ [ChatEntry.message (jsTrim s.inputValue) "user"],
          messages := s.messages ++ [{ text := jsTrim s.inputValue, sender := "user" }],
          inputValue := "",
          network := s.network ++ [Request.postMessage story.id (jsTrim s.inputValue)],
          sendBtnDisabled := false } := by
    simp [sendMessage, hstory, hmsg, addMessage]
  have hu : isMessageBot (ChatEntry.message (jsTrim s.inputValue) "user") = false := rfl
  rw [hsend]
  simp only [loadMessages, hstory]
  rw [foldl_addMessage]
  simp only []
  rw [find?_append_singleton_neg _ _ _ hu]
  rw [find?_toList_eq_filter _ _ hwelcome]

/-- A state with the story selected and the welcome message rendered. -/
def selectedState : AppState :=
  addWelcomeMessage { initialState with currentStory := some { id := "s1", title := "The Fox" } }

/-- The selected state with the user's message typed into the input. -/
def typedInputState : AppState := { selectedState with inputValue := "hi" }

theorem sendThenResync_transcript_witness :
    (loadMessages
        (MessagesResult.messages
          [{ content := "hi", sender := "user" }, { content := "reply", sender := "bot" }])
        (sendMessage (SendResult.http true) typedInputState)).transcript
      = typedInputState.transcript.filter isMessageBot
        ++ ([{ content := "hi", sender := "user" },
             { content := "reply", sender := "bot" }] : List ServerMsg).map
            (fun m => ChatEntry.message m.content m.sender) :=
  sendThenResync_transcript typedInputState { id := "s1", title := "The Fox" }
    [{ content := "hi", sender := "user" }, { content := "reply", sender := "bot" }]
    rfl (by decide) (by decide)

/-- The in-memory list and the rendered transcript agree entry-for-entry
in order and count, with system notices (UI-only) excluded. -/
def inSync (s : AppState) : Prop :=
  s.transcript.filterMap ChatEntry.rendersMessage?
    = s.messages.map (fun m => (m.text, m.sender))

/-- A state as it stands right after the optimistic append of `"hi"`:
welcome message rendered and mirrored, story selected. -/
def optimisticState : AppState := addMessage "hi" "user" selectedState

/-- C2 counterexample: at this concrete synchronization point, after
`loadMessages` returns the two server messages, the rendered transcript
holds 3 entries but the in-memory list holds 4 — `loadMessages` re-renders
through `addMessage` without resetting `this.messages`, so list and
transcript disagree. -/
theorem loadMessages_sync_counterexample :
    ¬ inSync (loadMessages
        (MessagesResult.messages
          [{ content := "hi", sender := "user" }, { content := "reply", sender := "bot" }])
        optimisticState) := by
  simp only [inSync]
  decide

/-- C2 (amended): the invariant does hold after `clearChat`; after
`loadMessages` the transcript is replaced wholesale while the in-memory
list is only appended to — it becomes the previous list followed by the
server messages, so the two agree only when the previous list matched the
retained render state. -/
theorem sync_clearChat_loadMessages :
    (∀ s : AppState, inSync (clearChat s))
    ∧ (∀ (s : AppState) (story : Story) (msgs : List ServerMsg),
        s.currentStory = some story →
        (loadMessages (MessagesResult.messages msgs) s).messages
          = s.messages ++ msgs.map (fun m => { text := m.content, sender := m.sender })) := by
  constructor
  · intro s
    simp [inSync, clearChat, addWelcomeMessage, addMessage,
      ChatEntry.rendersMessage?]
  · intro s story msgs hstory
    simp only [loadMessages, hstory]
    rw [foldl_addMessage]

theorem sync_clearChat_loadMessages_witness :
    inSync (clearChat initialState)
    ∧ (loadMessages (MessagesResult.messages [{ content := "a", sender := "user" }])
        optimisticState).messages
        = optimisticState.messages ++ [{ text := "a", sender := "user" }] :=
  ⟨sync_clearChat_loadMessages.1 initialState,
   sync_clearChat_loadMessages.2 optimisticState { id := "s1", title := "The Fox" }
     [{ content := "a", sender := "user" }] rfl⟩

/-- A state whose story list already shows one entry. -/
def populatedListState : AppState :=
  { initialState with storiesList := [{ id := "s1", title := "The Fox" }] }

/-- A response whose `stories` field is truthy but not an array. -/
def badStoriesResp : JValue := JValue.obj [("stories", JValue.str "abc")]

/-- C5 counterexample: on the concrete response `{stories: "abc"}` — not
shaped `{stories: [...]}` — `loadStories` does surface one error, but the
story list is not left unchanged: `populateStoriesList` cleared the
container before `stories.forEach` threw, so the previously shown entry is
lost. -/
theorem loadStories_counterexample :
    (loadStories (StoriesResult.json badStoriesResp) populatedListState).errors
        = [errLoadStories]
    ∧ (loadStories (StoriesResult.json badStoriesResp) populatedListState).storiesList = []
    ∧ populatedListState.storiesList ≠ [] :=
  ⟨rfl, rfl, by decide⟩

/-- C5 (amended): `loadStories` populates the story list exactly when the
response has a truthy `stories` field that is an array; a falsy or missing
`stories` field and a transport failure each surface exactly one error and
leave the list untouched; a truthy non-array `stories` field surfaces
exactly one error but leaves the list cleared, not unchanged. -/
theorem loadStories_spec :
    (∀ (s : AppState) (data : JValue) (xs : List JValue),
      jGet data "stories" = JValue.arr xs → truthy data = true →
      (loadStories (StoriesResult.json data) s).storiesList = xs.map renderStoryItem
      ∧ (loadStories (StoriesResult.json data) s).errors = s.errors)
    ∧ (∀ (s : AppState) (data : JValue),
      truthy (jGet data "stories") = false ∨ truthy data = false →
      (loadStories (StoriesResult.json data) s).storiesList = s.storiesList
      ∧ (loadStories (StoriesResult.json data) s).errors = s.errors ++ [errLoadStories])
    ∧ (∀ s : AppState,
      (loadStories StoriesResult.thrown s).storiesList = s.storiesList
      ∧ (loadStories StoriesResult.thrown s).errors = s.errors ++ [errLoadStories])
    ∧ (∀ (s : AppState) (data : JValue),
      truthy data = true → truthy (jGet data "stories") = true →
      (jGet data "stories").isArr = false →
      (loadStories (StoriesResult.json data) s).storiesList = []
      ∧ (loadStories (StoriesResult.json data) s).errors = s.errors ++ [errLoadStories]) := by
  refine ⟨?_, ?_, ?_, ?_⟩
  · intro s data xs harr hdata
    simp only [loadStories, harr, hdata]
    simp [truthy, populateStoriesList, foldl_append_map]
  · intro s data h
    rcases h with h | h <;> simp [loadStories, h, showError]
  · intro s
    simp [loadStories, showError]
  · intro s data hdata hs hnotarr
    cases hj : jGet data "stories" <;>
      simp_all [loadStories, truthy, JValue.isArr, showError]

/-- A well-shaped catalog response with one story. -/
def oneStoryResp : JValue :=
  JValue.obj [("stories",
    JValue.arr [JValue.obj [("id", JValue.str "s1"), ("title", JValue.str "The Fox")]])]

theorem loadStories_spec_witness :
    ((loadStories (StoriesResult.json oneStoryResp) initialState).storiesList
        = ([JValue.obj [("id", JValue.str "s1"), ("title", JValue.str "The Fox")]]).map
            renderStoryItem
      ∧ (loadStories (StoriesResult.json oneStoryResp) initialState).errors
        = initialState.errors)
    ∧ ((loadStories (StoriesResult.json (JValue.obj [])) populatedListState).storiesList
        = populatedListState.storiesList
      ∧ (loadStories (StoriesResult.json (JValue.obj [])) populatedListState).errors
        = populatedListState.errors ++ [errLoadStories])
    ∧ ((loadStories StoriesResult.thrown populatedListState).storiesList
        = populatedListState.storiesList
      ∧ (loadStories StoriesResult.thrown populatedListState).errors
        = populatedListState.errors ++ [errLoadStories])
    ∧ ((loadStories (StoriesResult.json badStoriesResp) populatedListState).storiesList = []
      ∧ (loadStories (StoriesResult.json badStoriesResp) populatedListState).errors
        = populatedListState.errors ++ [errLoadStories]) :=
  ⟨loadStories_spec.1 initialState oneStoryResp
      [JValue.obj [("id", JValue.str "s1"), ("title", JValue.str "The Fox")]] rfl rfl,
   loadStories_spec.2.1 populatedListState (JValue.obj []) (Or.inl rfl),
   loadStories_spec.2.2.1 populatedListState,
   loadStories_spec.2.2.2 populatedListState badStoriesResp rfl (by decide) rfl⟩
